import Mathlib

/- Verification of the QEMU machine backend of pkg/machine/qemu.go:
   launch-argument synthesis (Create and its genDrives closure), binary
   resolution (findQEMUBinary), the monitor-channel commands (Screenshot,
   DetachCD) and the lifecycle operations (Stop, Clean, Config). -/

/-- Machine configuration as consumed by the QEMU backend (types.MachineConfig).
Field names follow the Go struct; SSHPort stands for the nested SSH.Port field. -/
structure MachineConfig where
  ID : String := ""
  Memory : String := ""
  CPU : String := ""
  CPUType : String := ""
  Arch : String := ""
  Drives : List String := []
  DriveSizes : List String := []
  AutoDriveSetup : Bool := false
  ISO : String := ""
  DataSource : String := ""
  DisableDefaultNetworking : Bool := false
  SSHPort : String := ""
  Display : String := ""
  Args : List String := []
  StateDir : String := ""
  Process : String := ""
deriving Repr, DecidableEq

/-- The QEMU machine value; it carries the machine configuration. -/
structure QEMU where
  machineConfig : MachineConfig
deriving Repr, DecidableEq

/-- True when the last character of the string is a slash. Used to model the
path cleaning Go performs when joining path elements. -/
def endsWithSlash (dir : String) : Bool :=
  dir.data.getLast? == some '/'

/-- Go path.Join and filepath.Join for the shapes arising in this code: an
empty directory yields the bare file name; otherwise the two parts joined with
a single slash, a trailing slash on the directory being absorbed as Clean
would do. -/
def pathJoin (dir file : String) : String :=
  if dir = "" then file
  else if endsWithSlash dir then dir ++ file
  else dir ++ ("/" ++ file)

/-- monitorSockFile: path.Join(q.machineConfig.StateDir, "qemu-monitor.sock"). -/
def monitorSockFile (m : MachineConfig) : String :=
  pathJoin m.StateDir "qemu-monitor.sock"

/-- Token fmt.Sprintf("if=none,id=%s,file=%s", driveID, d) with driveID the
string "drv" followed by the shared id counter. -/
def persistentDriveArg (i : Nat) (d : String) : String :=
  "if=none,id=drv" ++ (toString i ++ (",file=" ++ d))

/-- Token fmt.Sprintf("virtio-blk-pci,drive=%s,bootindex=%d", driveID, bi);
the source passes i+1 for the i-th user drive (0-based i). -/
def persistentDeviceArg (i bi : Nat) : String :=
  "virtio-blk-pci,drive=drv" ++ (toString i ++ (",bootindex=" ++ toString bi))

/-- Token for the shared virtio SCSI controller added once by addSCSIIfNeeded. -/
def scsiControllerArg : String := "virtio-scsi-pci,id=scsi0"

/-- Token fmt.Sprintf("if=none,id=%s,media=cdrom,file=%s", driveID, f). -/
def cdromDriveArg (i : Nat) (f : String) : String :=
  "if=none,id=drv" ++ (toString i ++ (",media=cdrom,file=" ++ f))

/-- Token fmt.Sprintf("scsi-cd,drive=%s,bus=scsi0.0,bootindex=%d", driveID, bi);
the source writes the bootindex literally, 50 for the ISO and 60 for the
data source. -/
def cdromDeviceArg (i bi : Nat) : String :=
  "scsi-cd,drive=drv" ++ (toString i ++ (",bus=scsi0.0,bootindex=" ++ toString bi))

/-- The user-disk loop of the genDrives closure: one drive/device token pair
per persistent drive. The counter i is both the loop index and the shared id
counter, which coincide for this loop (both start at 0 and step together);
the device bootindex is the counter plus one. -/
def userDriveTokens : Nat → List String → List String
  | _, [] => []
  | i, d :: rest =>
    "-drive" :: persistentDriveArg i d ::
    "-device" :: persistentDeviceArg i (i + 1) ::
    userDriveTokens (i + 1) rest

/-- The genDrives closure inside Create: persistent drives first with
bootindex 1..N in input order, then the primary ISO and the data-source ISO
behind a lazily added shared SCSI controller with bootindex 50 and 60, the
drive id counter continuing across the three sections. -/
def genDrives (userDrives : List String) (m : MachineConfig) : List String :=
  let userTokens := userDriveTokens 0 userDrives
  let n := userDrives.length
  let isoTokens :=
    if m.ISO ≠ "" then
      "-device" :: scsiControllerArg ::
      "-drive" :: cdromDriveArg n m.ISO ::
      "-device" :: cdromDeviceArg n 50 :: []
    else []
  let dsId := if m.ISO ≠ "" then n + 1 else n
  let dsTokens :=
    if m.DataSource ≠ "" then
      (if m.ISO ≠ "" then [] else ["-device", scsiControllerArg]) ++
      ("-drive" :: cdromDriveArg dsId m.DataSource ::
       "-device" :: cdromDeviceArg dsId 60 :: [])
    else []
  userTokens ++ isoTokens ++ dsTokens

/-- Modelled from the spec: types.DefaultDriveSize, the documented default
drive size of the types package, which is not under src. The claims depend
only on the constant itself, never on its numeric value. -/
def DefaultDriveSize : String := "30000"

/-- driveSizes: each configured size with the M suffix appended, or a single
default entry when no sizes are configured. -/
def driveSizes (m : MachineConfig) : List String :=
  let sizes := m.DriveSizes.map (fun s => s ++ "M")
  if sizes.length = 0 then [DefaultDriveSize ++ "M"] else sizes

/-- The disk images Create asks CreateDisk for, as (file name, size) pairs:
one per entry of driveSizes, named ID-index.img, only when auto drive setup
is enabled and no explicit drives are configured. -/
def provisionRequests (m : MachineConfig) : List (String × String) :=
  if m.AutoDriveSetup && m.Drives.length = 0 then
    (driveSizes m).enum.map (fun p => (m.ID ++ ("-" ++ (toString p.1 ++ ".img")), p.2))
  else []

/-- The userDrives list after the auto-provisioning step of Create: the
provisioned image paths under the state directory, or the configured drives. -/
def effectiveUserDrives (m : MachineConfig) : List String :=
  if m.AutoDriveSetup && m.Drives.length = 0 then
    (provisionRequests m).map (fun p => pathJoin m.StateDir p.1)
  else m.Drives

/-- Go strings.Split(s, " "): split on every single space, keeping empty
fields; an empty input yields one empty field. -/
def splitOnSpaceAux : List Char → List Char → List String
  | [], acc => [String.mk acc.reverse]
  | c :: rest, acc =>
    if c = ' ' then String.mk acc.reverse :: splitOnSpaceAux rest []
    else splitOnSpaceAux rest (c :: acc)

/-- Split a string on spaces, Go strings.Split semantics. -/
def splitOnSpace (s : String) : List String :=
  splitOnSpaceAux s.data []

/-- Display tokens of Create: the display string, defaulting to -nographic,
split on spaces. -/
def displayTokens (m : MachineConfig) : List String :=
  splitOnSpace (if m.Display ≠ "" then m.Display else "-nographic")

/-- The initial opts literal of Create: memory, cores, clock, the monitor
socket declaration and the virtio serial device. -/
def baseOpts (m : MachineConfig) : List String :=
  ["-m", m.Memory,
   "-smp", "cores=" ++ m.CPU,
   "-rtc", "base=utc,clock=rt",
   "-monitor", "unix:" ++ (monitorSockFile m ++ ",server,nowait"),
   "-device", "virtio-serial"]

/-- Networking tokens, present unless default networking is disabled. -/
def netTokens (m : MachineConfig) : List String :=
  if !m.DisableDefaultNetworking then
    ["-nic", "user,hostfwd=tcp::" ++ (m.SSHPort ++ "-:22")]
  else []

/-- CPU model tokens: the configured CPU type, else the aarch64 default. -/
def cpuTokens (m : MachineConfig) : List String :=
  if m.CPUType ≠ "" then ["-cpu", m.CPUType]
  else if m.Arch = "aarch64" then ["-cpu", "max"]
  else []

/-- Machine-type and firmware tokens required for aarch64. -/
def machineTokens (m : MachineConfig) : List String :=
  if m.Arch = "aarch64" then ["-machine", "virt,accel=tcg,acpi=on,gic-version=2"]
  else []

/-- All option tokens Create accumulates before the final boot directive, in
the order the source appends them. -/
def createOptsPre (m : MachineConfig) : List String :=
  baseOpts m ++ netTokens m ++ displayTokens m ++ cpuTokens m ++ m.Args ++
    machineTokens m

/-- The opts list of Create after its last append: the boot directive pair
closes the option tokens. -/
def createOpts (m : MachineConfig) : List String :=
  createOptsPre m ++ ["-boot", "order=dc,menu=on"]

/-- Modelled from the spec: the process collaborator (go-processmanager, not
under src) accumulates successive WithArgs options by appending, so the
launcher receives the option tokens followed by the drive tokens, the same
list Create logs via append(opts, genDrives(...)). -/
def fullArgs (m : MachineConfig) (userDrives : List String) : List String :=
  createOpts m ++ genDrives userDrives m

/-- The fixed list of common QEMU install locations searched by
findQEMUBinary, in source order. -/
def commonPaths : List String :=
  ["/home/linuxbrew/.linuxbrew/bin/",
   "/usr/local/bin/",
   "/usr/bin/",
   "/opt/homebrew/bin/",
   "/usr/local/homebrew/bin/"]

/-- findQEMUBinary: statOk tells whether os.Stat succeeds on a path, lookPath
is the outcome of exec.LookPath on the binary name. The common paths are
scanned in order; the PATH lookup is the fallback; when both fail the error
wraps the lookup error after naming the binary and the searched locations. -/
def findQEMUBinary (statOk : String → Bool) (lookPath : Except String String)
    (arch : String) : Except String String :=
  let qemuBinary := "qemu-system-" ++ arch
  match commonPaths.find? (fun p => statOk (pathJoin p qemuBinary)) with
  | some p => Except.ok (pathJoin p qemuBinary)
  | none =>
    match lookPath with
    | Except.ok p => Except.ok p
    | Except.error e =>
      Except.error (qemuBinary ++ (" not found in common paths or PATH: " ++ e))

/-- Binary resolution in Create: the explicit Process override wins, else
findQEMUBinary, whose failure is wrapped and aborts Create. -/
def resolveProcessName (m : MachineConfig) (statOk : String → Bool)
    (lookPath : Except String String) : Except String String :=
  if m.Process ≠ "" then Except.ok m.Process
  else
    match findQEMUBinary statOk lookPath m.Arch with
    | Except.ok p => Except.ok p
    | Except.error e => Except.error ("failed to find QEMU binary: " ++ e)

/-- The launch plan Create computes before any process is started: the
resolved binary name and the full argument list; a resolution failure aborts
with no plan. -/
def createPlan (m : MachineConfig) (statOk : String → Bool)
    (lookPath : Except String String) : Except String (String × List String) :=
  match resolveProcessName m statOk lookPath with
  | Except.error e => Except.error e
  | Except.ok name => Except.ok (name, fullArgs m (effectiveUserDrives m))

/-- Environment of one monitor-channel session. dial gives the dial error for
a socket path, none meaning the dial succeeds; tmpErr and tmpName model
os.CreateTemp; writeCount is the byte count fmt.Fprint reports for the single
write when writeErr is none; deadlineErr models SetReadDeadline; drainReads is
the number of successful reads the drain loop performs before its first
failing read (the read deadline guarantees some read eventually fails). -/
structure MonitorEnv where
  dial : String → Option String := fun _ => none
  tmpErr : Option String := none
  tmpName : String := ""
  writeErr : Option String := none
  writeCount : Nat := 0
  deadlineErr : Option String := none
  drainReads : Nat := 0

/-- The command line Screenshot writes: fmt.Sprintf("screendump %s\r\n", name). -/
def screendumpCmd (file : String) : String :=
  "screendump " ++ (file ++ "\r\n")

/-- The fixed command line DetachCD writes. -/
def ejectCmd : String := "eject -f ide0-cd0\r\n"

/-- The short-write error message of fmt.Errorf: didn ++ apostrophe ++ t send
the full command (%d out of %d bytes), with n and len(cmd) formatted in. The
apostrophe is written as the escape x27. -/
def shortWriteMsg (n total : Nat) : String :=
  "didn\x27t send the full command (" ++
    (toString n ++ (" out of " ++ (toString total ++ " bytes)")))

/-- Screenshot: dial the monitor socket, pick a fresh temp file name, write
the screendump command in one transfer, fail on a short write, set the read
deadline, then drain until a read fails and return the temp file name. The
second component counts the reads the drain loop performed. -/
def screenshot (m : MachineConfig) (env : MonitorEnv) :
    Except String String × Nat :=
  match env.dial (monitorSockFile m) with
  | some e => (Except.error e, 0)
  | none =>
    match env.tmpErr with
    | some e => (Except.error e, 0)
    | none =>
      let cmd := screendumpCmd env.tmpName
      match env.writeErr with
      | some e => (Except.error e, 0)
      | none =>
        if env.writeCount ≠ cmd.length then
          (Except.error (shortWriteMsg env.writeCount cmd.length), 0)
        else
          match env.deadlineErr with
          | some e => (Except.error e, 0)
          | none => (Except.ok env.tmpName, env.drainReads + 1)

/-- DetachCD: same session shape as Screenshot with the fixed eject command
and no temp file step. -/
def detachCD (m : MachineConfig) (env : MonitorEnv) :
    Except String Unit × Nat :=
  match env.dial (monitorSockFile m) with
  | some e => (Except.error e, 0)
  | none =>
    match env.writeErr with
    | some e => (Except.error e, 0)
    | none =>
      if env.writeCount ≠ ejectCmd.length then
        (Except.error (shortWriteMsg env.writeCount ejectCmd.length), 0)
      else
        match env.deadlineErr with
        | some e => (Except.error e, 0)
        | none => (Except.ok (), env.drainReads + 1)

/-- Running-state of process handles, keyed by state directory. -/
def ProcWorld : Type := String → Bool

/-- Modelled from the spec: Stop of the process collaborator
(go-processmanager, not under src). The spec fixes it as requesting
termination of the process bound to the state directory, idempotent, and not
an error for an already-stopped or never-started process; it therefore clears
the running flag of that state directory and reports no error. -/
def pmStop (w : ProcWorld) (stateDir : String) : ProcWorld × Option String :=
  (fun d => if d = stateDir then false else w d, none)

/-- QEMU.Stop: build a fresh process handle on the state directory and stop it. -/
def QEMU.Stop (q : QEMU) (w : ProcWorld) : ProcWorld × Option String :=
  pmStop w q.machineConfig.StateDir

/-- QEMU.Config returns the machine configuration. -/
def QEMU.Config (q : QEMU) : MachineConfig :=
  q.machineConfig

/-- Path p lies in the directory tree rooted at dir: p is dir itself or any
path below it. This is the tree os.RemoveAll deletes. -/
def inTree (dir p : String) : Bool :=
  p = dir || (dir ++ "/").data.isPrefixOf p.data

/-- os.RemoveAll over a filesystem modelled as the set of existing paths,
with the removal itself succeeding. -/
def removeAll (dir : String) (fs : String → Bool) : String → Bool :=
  fun p => if inTree dir p then false else fs p

/-- QEMU.Clean: remove the state directory tree when StateDir is nonempty,
else do nothing; either way return nil and leave the machine value as it is. -/
def QEMU.Clean (q : QEMU) (fs : String → Bool) :
    QEMU × (String → Bool) × Option String :=
  if q.machineConfig.StateDir ≠ "" then
    (q, removeAll q.machineConfig.StateDir fs, none)
  else (q, fs, none)

/-- Numeric value of a list of decimal digit characters. -/
def digitsToNat (l : List Char) : Nat :=
  l.foldl (fun a c => 10 * a + (c.toNat - 48)) 0

/-- True for the characters 0..9. -/
def isDigitChar (c : Char) : Bool :=
  48 ≤ c.toNat && c.toNat ≤ 57

/-- The trailing run of decimal digits of a character list. -/
def trailingDigits (l : List Char) : List Char :=
  (l.reverse.takeWhile isDigitChar).reverse

/-- The boot priority a device token carries: the numeric value of its
trailing digit run, which for the generated tokens is the number after the
final bootindex= field. -/
def bootindexOf (t : String) : Nat :=
  digitsToNat (trailingDigits t.data)

/-- Fifty persistent drive paths, the input refuting the universal boot
priority comparison of the removable media section. -/
def fiftyDrives : List String :=
  (List.range 50).map (fun i => "d" ++ toString i)

/-- A configuration with both removable media configured. -/
def bothMediaConfig : MachineConfig :=
  { ISO := "install.iso", DataSource := "data.iso" }

/-- A string extending a literal head cannot equal a string whose character
list does not extend that head. -/
theorem append_ne_of_not_pre {p t : String} (x : String)
    (h : ¬ p.data <+: t.data) : p ++ x ≠ t := by
  intro he
  apply h
  refine ⟨x.data, ?_⟩
  rw [← String.data_append, he]

theorem persistentDriveArg_ne (i : Nat) (d : String) {t : String}
    (h : ¬ "if=none,id=drv".data <+: t.data) : persistentDriveArg i d ≠ t := by
  unfold persistentDriveArg
  exact append_ne_of_not_pre _ h

theorem persistentDeviceArg_ne (i bi : Nat) {t : String}
    (h : ¬ "virtio-blk-pci,drive=drv".data <+: t.data) :
    persistentDeviceArg i bi ≠ t := by
  unfold persistentDeviceArg
  exact append_ne_of_not_pre _ h

theorem cdromDriveArg_ne (i : Nat) (f : String) {t : String}
    (h : ¬ "if=none,id=drv".data <+: t.data) : cdromDriveArg i f ≠ t := by
  unfold cdromDriveArg
  exact append_ne_of_not_pre _ h

theorem cdromDeviceArg_ne (i bi : Nat) {t : String}
    (h : ¬ "scsi-cd,drive=drv".data <+: t.data) : cdromDeviceArg i bi ≠ t := by
  unfold cdromDeviceArg
  exact append_ne_of_not_pre _ h

/-- The user-disk loop unrolled to an index-driven flatMap: drive j of the
input (0-based) contributes the pair with id counter k+j and bootindex k+j+1. -/
theorem userDriveTokens_eq_flatMap (ds : List String) (k : Nat) :
    userDriveTokens k ds =
      (List.range ds.length).flatMap
        (fun j => ["-drive", persistentDriveArg (k + j) (ds.getD j ""),
                   "-device", persistentDeviceArg (k + j) (k + j + 1)]) := by
  induction ds generalizing k with
  | nil => simp [userDriveTokens]
  | cons d rest ih =>
    simp only [userDriveTokens, List.length_cons, List.range_succ_eq_map,
      List.flatMap_cons, List.flatMap_map, List.getD_cons_zero,
      List.getD_cons_succ, Nat.add_zero, ih (k + 1)]
    have harith : ∀ j : Nat, k + 1 + j = k + (j + 1) := fun j => by omega
    simp only [Nat.succ_eq_add_one, harith, List.cons_append, List.nil_append]

/-- The user-disk loop contains one -drive marker per drive. -/
theorem userDriveTokens_count_drive (ds : List String) (k : Nat) :
    ((userDriveTokens k ds).filter (fun t => t = "-drive")).length = ds.length := by
  induction ds generalizing k with
  | nil => simp [userDriveTokens]
  | cons d rest ih =>
    have h1 : persistentDriveArg k d ≠ "-drive" :=
      persistentDriveArg_ne k d (by decide)
    have h2 : persistentDeviceArg k (k + 1) ≠ "-drive" :=
      persistentDeviceArg_ne k (k + 1) (by decide)
    have h3 : ("-device" : String) ≠ "-drive" := by decide
    simp [userDriveTokens, List.filter_cons, h1, h2, h3, ih]

/-- The user-disk loop contains one -device marker per drive. -/
theorem userDriveTokens_count_device (ds : List String) (k : Nat) :
    ((userDriveTokens k ds).filter (fun t => t = "-device")).length = ds.length := by
  induction ds generalizing k with
  | nil => simp [userDriveTokens]
  | cons d rest ih =>
    have h1 : persistentDriveArg k d ≠ "-device" :=
      persistentDriveArg_ne k d (by decide)
    have h2 : persistentDeviceArg k (k + 1) ≠ "-device" :=
      persistentDeviceArg_ne k (k + 1) (by decide)
    have h3 : ("-drive" : String) ≠ "-device" := by decide
    simp [userDriveTokens, List.filter_cons, h1, h2, h3, ih]

/-- The user-disk loop never emits the SCSI controller token. -/
theorem userDriveTokens_count_scsi (ds : List String) (k : Nat) :
    ((userDriveTokens k ds).filter (fun t => t = scsiControllerArg)).length = 0 := by
  induction ds generalizing k with
  | nil => simp [userDriveTokens]
  | cons d rest ih =>
    have h1 : persistentDriveArg k d ≠ scsiControllerArg :=
      persistentDriveArg_ne k d (by decide)
    have h2 : persistentDeviceArg k (k + 1) ≠ scsiControllerArg :=
      persistentDeviceArg_ne k (k + 1) (by decide)
    have h3 : ("-drive" : String) ≠ scsiControllerArg := by decide
    have h4 : ("-device" : String) ≠ scsiControllerArg := by decide
    simp [userDriveTokens, List.filter_cons, h1, h2, h3, h4, ih]

/-- C1: for a configuration with persistent drives and neither a primary ISO
nor a data-source medium, genDrives emits exactly one drive/device token pair
per persistent drive, in input order, the j-th pair (0-based j) carrying
bootindex j+1, and emits no removable-media SCSI controller token. -/
theorem genDrives_persistent_only (m : MachineConfig) (ds : List String)
    (hISO : m.ISO = "") (hDS : m.DataSource = "") :
    genDrives ds m =
      (List.range ds.length).flatMap
        (fun j => ["-drive", persistentDriveArg j (ds.getD j ""),
                   "-device", persistentDeviceArg j (j + 1)]) ∧
    ((genDrives ds m).filter (fun t => t = "-drive")).length = ds.length ∧
    ((genDrives ds m).filter (fun t => t = "-device")).length = ds.length ∧
    scsiControllerArg ∉ genDrives ds m := by
  have hg : genDrives ds m = userDriveTokens 0 ds := by
    simp [genDrives, hISO, hDS]
  refine ⟨?_, ?_, ?_, ?_⟩
  · rw [hg, userDriveTokens_eq_flatMap]
    simp
  · rw [hg]; exact userDriveTokens_count_drive ds 0
  · rw [hg]; exact userDriveTokens_count_device ds 0
  · rw [hg]
    intro hmem
    have := userDriveTokens_count_scsi ds 0
    rw [List.length_eq_zero] at this
    have hin : scsiControllerArg ∈
        (userDriveTokens 0 ds).filter (fun t => t = scsiControllerArg) :=
      List.mem_filter.mpr ⟨hmem, by simp⟩
    rw [this] at hin
    exact List.not_mem_nil _ hin

/-- C1 witness at two concrete drives. -/
theorem genDrives_persistent_only_witness :
    scsiControllerArg ∉ genDrives ["sda.img", "sdb.img"] {} :=
  (genDrives_persistent_only {} ["sda.img", "sdb.img"] rfl rfl).2.2.2

/-- C2 (amended: fewer than 50 persistent drives): with at least one
persistent drive and both removable media configured, genDrives emits the
shared SCSI controller token exactly once, ahead of the two cdrom pairs, the
primary medium carrying bootindex 50 and the data source bootindex 60, while
the j-th persistent drive (0-based j) carries bootindex j+1, strictly below
50, which is strictly below 60. -/
theorem genDrives_both_media (m : MachineConfig) (ds : List String)
    (hds : ds ≠ []) (hISO : m.ISO ≠ "") (hDS : m.DataSource ≠ "")
    (hN : ds.length < 50) :
    genDrives ds m =
      (List.range ds.length).flatMap
        (fun j => ["-drive", persistentDriveArg j (ds.getD j ""),
                   "-device", persistentDeviceArg j (j + 1)]) ++
      ("-device" :: scsiControllerArg ::
       "-drive" :: cdromDriveArg ds.length m.ISO ::
       "-device" :: cdromDeviceArg ds.length 50 ::
       "-drive" :: cdromDriveArg (ds.length + 1) m.DataSource ::
       "-device" :: cdromDeviceArg (ds.length + 1) 60 :: []) ∧
    ((genDrives ds m).filter (fun t => t = scsiControllerArg)).length = 1 ∧
    (∀ j ∈ List.range ds.length, 0 < j + 1 ∧ j + 1 < 50) ∧
    (50 : Nat) < 60 := by
  have hg : genDrives ds m =
      userDriveTokens 0 ds ++
      ("-device" :: scsiControllerArg ::
       "-drive" :: cdromDriveArg ds.length m.ISO ::
       "-device" :: cdromDeviceArg ds.length 50 ::
       "-drive" :: cdromDriveArg (ds.length + 1) m.DataSource ::
       "-device" :: cdromDeviceArg (ds.length + 1) 60 :: []) := by
    simp [genDrives, hISO, hDS]
  refine ⟨?_, ?_, ?_, by decide⟩
  · rw [hg, userDriveTokens_eq_flatMap]
    simp
  · have h1 : cdromDriveArg ds.length m.ISO ≠ scsiControllerArg :=
      cdromDriveArg_ne _ _ (by decide)
    have h2 : cdromDeviceArg ds.length 50 ≠ scsiControllerArg :=
      cdromDeviceArg_ne _ _ (by decide)
    have h3 : cdromDriveArg (ds.length + 1) m.DataSource ≠ scsiControllerArg :=
      cdromDriveArg_ne _ _ (by decide)
    have h4 : cdromDeviceArg (ds.length + 1) 60 ≠ scsiControllerArg :=
      cdromDeviceArg_ne _ _ (by decide)
    have h5 : ("-drive" : String) ≠ scsiControllerArg := by decide
    have h6 : ("-device" : String) ≠ scsiControllerArg := by decide
    rw [hg, List.filter_append, List.length_append, userDriveTokens_count_scsi]
    simp [List.filter_cons, h1, h2, h3, h4, h5, h6]
  · intro j hj
    rw [List.mem_range] at hj
    omega

/-- C2 witness at one concrete drive and both media. -/
theorem genDrives_both_media_witness :
    ((genDrives ["root.img"] bothMediaConfig).filter
        (fun t => t = scsiControllerArg)).length = 1 :=
  (genDrives_both_media bothMediaConfig ["root.img"]
    (by decide) (by decide) (by decide) (by decide)).2.1

/-- C2 counterexample to the unrestricted claim: with 50 persistent drives the
last persistent drive token and the primary medium token carry the same boot
priority 50, so the primary medium priority is not strictly greater than
every persistent drive priority. -/
theorem genDrives_bootindex_clash :
    "virtio-blk-pci,drive=drv49,bootindex=50" ∈
      genDrives fiftyDrives bothMediaConfig ∧
    "scsi-cd,drive=drv50,bus=scsi0.0,bootindex=50" ∈
      genDrives fiftyDrives bothMediaConfig ∧
    bootindexOf "virtio-blk-pci,drive=drv49,bootindex=50" = 50 ∧
    bootindexOf "scsi-cd,drive=drv50,bus=scsi0.0,bootindex=50" = 50 := by
  decide

/-- C3: with auto drive setup enabled and no explicit drives, a configured
size list of ["10240"] makes Create provision exactly one image named
ID-0.img of size 10240M under the state directory, and an empty size list
makes it provision exactly one image of the default size. -/
theorem autoProvision_one_image (m : MachineConfig)
    (hauto : m.AutoDriveSetup = true) (hdrives : m.Drives = []) :
    (m.DriveSizes = ["10240"] →
      provisionRequests m = [(m.ID ++ "-0.img", "10240M")] ∧
      effectiveUserDrives m = [pathJoin m.StateDir (m.ID ++ "-0.img")]) ∧
    (m.DriveSizes = [] →
      provisionRequests m = [(m.ID ++ "-0.img", DefaultDriveSize ++ "M")] ∧
      effectiveUserDrives m = [pathJoin m.StateDir (m.ID ++ "-0.img")]) := by
  have hlit : ("-" ++ (toString (0 : Nat) ++ ".img") : String) = "-0.img" := rfl
  constructor
  · intro hsz
    have hp : provisionRequests m = [(m.ID ++ "-0.img", "10240M")] := by
      simp [provisionRequests, driveSizes, hauto, hdrives, hsz, List.enum, hlit]
    refine ⟨hp, ?_⟩
    simp [effectiveUserDrives, hauto, hdrives, hp]
  · intro hsz
    have hp : provisionRequests m = [(m.ID ++ "-0.img", DefaultDriveSize ++ "M")] := by
      simp [provisionRequests, driveSizes, hauto, hdrives, hsz, List.enum, hlit]
    refine ⟨hp, ?_⟩
    simp [effectiveUserDrives, hauto, hdrives, hp]

/-- C3 witness at a concrete identifier and state directory. -/
theorem autoProvision_one_image_witness :
    provisionRequests
        { ID := "vm1", StateDir := "/st", AutoDriveSetup := true,
          DriveSizes := ["10240"] } =
      [("vm1" ++ "-0.img", "10240M")] :=
  ((autoProvision_one_image
      { ID := "vm1", StateDir := "/st", AutoDriveSetup := true,
        DriveSizes := ["10240"] } rfl rfl).1 rfl).1

/-- A minimal configuration used to refute the final position of the boot
directive. -/
def oneDriveConfig : MachineConfig :=
  { Memory := "2048", CPU := "2", SSHPort := "2222", StateDir := "/tmp/vm" }

/-- C4 counterexample: with one persistent drive the complete launcher
argument list does not end with the boot directive; the drive tokens follow
it. -/
theorem fullArgs_boot_not_last :
    (fullArgs oneDriveConfig ["disk0.img"]).getLastD "" =
      "virtio-blk-pci,drive=drv0,bootindex=1" ∧
    (fullArgs oneDriveConfig ["disk0.img"]).getLastD "" ≠ "order=dc,menu=on" := by
  decide

/-- C4 (amended): the boot directive pair closes the option tokens, and the
complete launcher argument list is those options followed by the drive
tokens; the boot pair is therefore last overall exactly in the no-drive,
no-media case. -/
theorem fullArgs_boot_last_of_opts (m : MachineConfig) (ds : List String) :
    fullArgs m ds =
      createOptsPre m ++ (["-boot", "order=dc,menu=on"] ++ genDrives ds m) ∧
    (ds = [] → m.ISO = "" → m.DataSource = "" →
      fullArgs m ds = createOptsPre m ++ ["-boot", "order=dc,menu=on"] ∧
      (fullArgs m ds).getLastD "" = "order=dc,menu=on") := by
  constructor
  · simp [fullArgs, createOpts]
  · intro h1 h2 h3
    have hg : genDrives ds m = [] := by
      simp [genDrives, h1, h2, h3, userDriveTokens]
    constructor
    · simp [fullArgs, createOpts, hg]
    · have : fullArgs m ds = (createOptsPre m ++ ["-boot"]) ++ ["order=dc,menu=on"] := by
        simp [fullArgs, createOpts, hg]
      rw [this, List.getLastD_concat]

/-- C4 amended-claim witness on the empty configuration. -/
theorem fullArgs_boot_last_of_opts_witness :
    (fullArgs {} []).getLastD "" = "order=dc,menu=on" :=
  ((fullArgs_boot_last_of_opts {} []).2 rfl rfl rfl).2

/-- C5 counterexample: the admin socket file name joined onto the state
directory is qemu-monitor.sock, not monitor.sock. -/
theorem monitorSockFile_not_monitor_sock :
    monitorSockFile { StateDir := "/tmp/vm" } = "/tmp/vm/qemu-monitor.sock" ∧
    monitorSockFile { StateDir := "/tmp/vm" } ≠ "/tmp/vm/monitor.sock" := by
  decide

/-- C5 (amended): the admin-channel socket path is the one fixed file name
qemu-monitor.sock joined onto the state directory, and Create (through the
monitor token of its option list), Screenshot and DetachCD all address
exactly that path. -/
theorem monitorSock_derived (m : MachineConfig) (env : MonitorEnv) (e : String)
    (h1 : m.StateDir ≠ "") (h2 : endsWithSlash m.StateDir = false)
    (hdial : env.dial (monitorSockFile m) = some e) :
    monitorSockFile m = m.StateDir ++ ("/" ++ "qemu-monitor.sock") ∧
    ("unix:" ++ (monitorSockFile m ++ ",server,nowait")) ∈ createOpts m ∧
    screenshot m env = (Except.error e, 0) ∧
    detachCD m env = (Except.error e, 0) := by
  refine ⟨?_, ?_, ?_, ?_⟩
  · simp [monitorSockFile, pathJoin, h1, h2]
  · simp [createOpts, createOptsPre, baseOpts]
  · simp [screenshot, hdial]
  · simp [detachCD, hdial]

/-- C5 amended-claim witness on a concrete state directory. -/
theorem monitorSock_derived_witness :
    monitorSockFile { StateDir := "/tmp/vm" } =
      "/tmp/vm" ++ ("/" ++ "qemu-monitor.sock") :=
  (monitorSock_derived { StateDir := "/tmp/vm" }
    { dial := fun _ => some "dial failed" } "dial failed"
    (by decide) (by decide) rfl).1

/-- C6: in both monitor commands, a write whose reported byte count differs
from the command line length fails with the message naming both the written
count and the line length, and the drain loop performs no read. -/
theorem monitor_short_write (m : MachineConfig) (env : MonitorEnv)
    (hdial : env.dial (monitorSockFile m) = none)
    (htmp : env.tmpErr = none) (hw : env.writeErr = none)
    (hshort1 : env.writeCount ≠ (screendumpCmd env.tmpName).length)
    (hshort2 : env.writeCount ≠ ejectCmd.length) :
    screenshot m env =
      (Except.error (shortWriteMsg env.writeCount (screendumpCmd env.tmpName).length), 0) ∧
    detachCD m env =
      (Except.error (shortWriteMsg env.writeCount ejectCmd.length), 0) := by
  constructor
  · simp [screenshot, hdial, htmp, hw, hshort1]
  · simp [detachCD, hdial, hw, hshort2]

/-- C6 witness: three bytes written against the two command lines. -/
theorem monitor_short_write_witness :
    detachCD {} { writeCount := 3 } =
      (Except.error (shortWriteMsg 3 ejectCmd.length), 0) :=
  (monitor_short_write {} { writeCount := 3 } rfl rfl rfl
    (by decide) (by decide)).2

/-- C7: once the command line is fully written and the read deadline set,
both monitor commands succeed whatever the drain loop sees; the drain always
ends on a failing read and that failure is not surfaced; Screenshot returns
the generated temp file name with no error. -/
theorem monitor_drain_success (m : MachineConfig) (env env2 : MonitorEnv)
    (hdial : env.dial (monitorSockFile m) = none) (htmp : env.tmpErr = none)
    (hw : env.writeErr = none)
    (hlen : env.writeCount = (screendumpCmd env.tmpName).length)
    (hdl : env.deadlineErr = none)
    (hdial2 : env2.dial (monitorSockFile m) = none) (hw2 : env2.writeErr = none)
    (hlen2 : env2.writeCount = ejectCmd.length) (hdl2 : env2.deadlineErr = none) :
    screenshot m env = (Except.ok env.tmpName, env.drainReads + 1) ∧
    detachCD m env2 = (Except.ok (), env2.drainReads + 1) := by
  constructor
  · simp [screenshot, hdial, htmp, hw, hlen, hdl]
  · simp [detachCD, hdial2, hw2, hlen2, hdl2]

/-- C7 witness: a full write of each command line with five quiet reads. -/
theorem monitor_drain_success_witness :
    screenshot {} { tmpName := "shot.png", writeCount := 21, drainReads := 5 } =
      (Except.ok "shot.png", 6) :=
  (monitor_drain_success {}
    { tmpName := "shot.png", writeCount := 21, drainReads := 5 }
    { writeCount := 19, drainReads := 5 }
    rfl rfl rfl (by decide) rfl rfl rfl (by decide) rfl).1

/-- C8: Stop is idempotent and never errors: stopping a never-started or
already-stopped state directory reports no error, and a second Stop has the
same observable effect as one. -/
theorem stop_idempotent (q : QEMU) (w : ProcWorld) :
    (q.Stop w).2 = none ∧
    (w q.machineConfig.StateDir = false → (q.Stop w).2 = none) ∧
    QEMU.Stop q (q.Stop w).1 = q.Stop w := by
  refine ⟨rfl, fun _ => rfl, ?_⟩
  unfold QEMU.Stop pmStop
  refine Prod.ext ?_ rfl
  funext d
  by_cases h : d = q.machineConfig.StateDir <;> simp [h]

/-- C8 witness: stopping a world where nothing runs reports no error. -/
theorem stop_idempotent_witness :
    (QEMU.Stop ⟨{ StateDir := "/tmp/vm" }⟩ (fun _ => false)).2 = none :=
  (stop_idempotent ⟨{ StateDir := "/tmp/vm" }⟩ (fun _ => false)).2.1 rfl

/-- C9: with no explicit process override, the fixed common install locations
are checked first in list order, the PATH lookup is consulted only when all
of them fail, and when the PATH lookup also fails Create aborts before any
launch with an error naming the binary and the searched locations. -/
theorem find_binary_search (statOk : String → Bool)
    (lookPath : Except String String) (arch : String) :
    (∀ ps1 p ps2, commonPaths = ps1 ++ p :: ps2 →
      (∀ p1 ∈ ps1, statOk (pathJoin p1 ("qemu-system-" ++ arch)) = false) →
      statOk (pathJoin p ("qemu-system-" ++ arch)) = true →
      findQEMUBinary statOk lookPath arch =
        Except.ok (pathJoin p ("qemu-system-" ++ arch))) ∧
    ((∀ p ∈ commonPaths, statOk (pathJoin p ("qemu-system-" ++ arch)) = false) →
      (∀ b, lookPath = Except.ok b →
        findQEMUBinary statOk lookPath arch = Except.ok b) ∧
      (∀ e, lookPath = Except.error e →
        findQEMUBinary statOk lookPath arch =
          Except.error ("qemu-system-" ++ arch ++
            (" not found in common paths or PATH: " ++ e)) ∧
        ∀ m : MachineConfig, m.Process = "" → m.Arch = arch →
          createPlan m statOk lookPath =
            Except.error ("failed to find QEMU binary: " ++
              ("qemu-system-" ++ arch ++
                (" not found in common paths or PATH: " ++ e))))) := by
  constructor
  · intro ps1 p ps2 heq hall hp
    have h1 : ps1.find? (fun x => statOk (pathJoin x ("qemu-system-" ++ arch))) = none :=
      List.find?_eq_none.mpr (fun x hx => by simp [hall x hx])
    have h2 : (ps1 ++ p :: ps2).find?
        (fun x => statOk (pathJoin x ("qemu-system-" ++ arch))) = some p := by
      rw [List.find?_append, h1]
      simp [List.find?_cons_of_pos, hp]
    simp [findQEMUBinary, heq, h2]
  · intro hall
    have hfind :
        commonPaths.find? (fun x => statOk (pathJoin x ("qemu-system-" ++ arch))) = none :=
      List.find?_eq_none.mpr (fun x hx => by simp [hall x hx])
    constructor
    · intro b hb
      simp [findQEMUBinary, hfind, hb]
    · intro e he
      have herr : findQEMUBinary statOk lookPath arch =
          Except.error ("qemu-system-" ++ arch ++
            (" not found in common paths or PATH: " ++ e)) := by
        simp [findQEMUBinary, hfind, he]
      refine ⟨herr, ?_⟩
      intro m hproc harch
      simp [createPlan, resolveProcessName, hproc, harch, herr]

/-- C9 witness: every stat fails and the PATH lookup fails, so Create aborts
with the wrapped not-found error. -/
theorem find_binary_search_witness :
    createPlan { Arch := "x86_64" } (fun _ => false)
        (Except.error "not in PATH") =
      Except.error ("failed to find QEMU binary: " ++
        ("qemu-system-" ++ "x86_64" ++
          (" not found in common paths or PATH: " ++ "not in PATH"))) :=
  (((find_binary_search (fun _ => false) (Except.error "not in PATH") "x86_64").2
      (fun _ _ => rfl)).2 "not in PATH" rfl).2 { Arch := "x86_64" } rfl rfl

/-- C10: Clean with an empty state directory returns nil and leaves the
filesystem untouched; with a nonempty state directory it returns nil, removes
exactly the state directory tree and nothing outside it; in both cases the
configuration reported by Config is unchanged. -/
theorem clean_frame (q : QEMU) (fs : String → Bool) :
    (q.machineConfig.StateDir = "" → q.Clean fs = (q, fs, none)) ∧
    (q.machineConfig.StateDir ≠ "" →
      (q.Clean fs).2.2 = none ∧
      ∀ p, (inTree q.machineConfig.StateDir p = true → (q.Clean fs).2.1 p = false) ∧
           (inTree q.machineConfig.StateDir p = false → (q.Clean fs).2.1 p = fs p)) ∧
    ((q.Clean fs).1).Config = q.Config := by
  refine ⟨?_, ?_, ?_⟩
  · intro h
    simp [QEMU.Clean, h]
  · intro h
    refine ⟨by simp [QEMU.Clean, h], ?_⟩
    intro p
    constructor
    · intro hp
      simp [QEMU.Clean, h, removeAll, hp]
    · intro hp
      simp [QEMU.Clean, h, removeAll, hp]
  · unfold QEMU.Clean
    by_cases h : q.machineConfig.StateDir = "" <;> simp [h, QEMU.Config]

/-- C10 witness: an empty state directory leaves everything in place. -/
theorem clean_frame_witness :
    QEMU.Clean ⟨{ StateDir := "" }⟩ (fun _ => true) =
      (⟨{ StateDir := "" }⟩, (fun _ => true), none) :=
  (clean_frame ⟨{ StateDir := "" }⟩ (fun _ => true)).1 rfl
